import Mathlib

/-!
# Wi-Fi link state and frame forwarding of the USB network dongle (main/cmd_wifi.c)

A shallow embedding of the connection state machine in `main/cmd_wifi.c`:
the file-scope variables become the fields of `State`, each C function becomes
a Lean function on `State`, and every call that leaves the file (Wi-Fi driver,
TinyUSB, smartconfig, FreeRTOS tasks) is appended to the log `State.calls`.
Values returned by those external calls are supplied by an `Env` record, one
record per invocation.  `ESP_ERROR_CHECK` aborts the firmware; an aborted run
is `Except.error Fault.abort`.

Logging (`ESP_LOGx`, `printf`) and the scratch buffers obtained with `malloc`
are not represented.  The FreeRTOS event group is represented by its bit value
together with the state of the one task that waits on it with clear-on-exit
(the smartconfig task).  C strings are Lean strings, one character per byte.

Embedded: `wifi_event_handler`, `wifi_cmd_sta_join`, `wif_cmd_disconnect_wifi`,
`wifi_cmd_ap_set`, `smartconfig_task`, `wifi_cmd_start_smart_config`,
`wifi_cmd_stop_smart_config`, `wifi_buffer_free`, `wifi_recv_callback` and
`pkt_wifi2usb`.  The scan, query, mode and start-up functions touch none of the
variables studied here and are left out.
-/

namespace CmdWifi

/-! ## Basic types -/

/-- Error codes of the SDK: `ESP_OK` is 0 and `ESP_FAIL` is -1. -/
abbrev esp_err_t := Int

def ESP_OK : esp_err_t := 0
def ESP_FAIL : esp_err_t := -1

/-- Ways in which an invocation can end without returning. -/
inductive Fault
  | abort            -- ESP_ERROR_CHECK saw a value other than ESP_OK
  | null_deref       -- strlen applied to a NULL pointer
  | caller_deleted   -- vTaskDelete(NULL) removed the calling task
  deriving DecidableEq, Repr

/-- Interface selector; `ESP_IF_WIFI_STA` is the SDK alias of `WIFI_IF_STA`. -/
inductive wifi_interface_t
  | WIFI_IF_STA
  | WIFI_IF_AP
  deriving DecidableEq, Repr

inductive wifi_mode_t
  | WIFI_MODE_STA
  | WIFI_MODE_AP
  deriving DecidableEq, Repr

inductive wifi_auth_mode_t
  | WIFI_AUTH_OPEN
  | WIFI_AUTH_WPA_WPA2_PSK
  deriving DecidableEq, Repr

inductive smartconfig_type_t
  | SC_TYPE_ESPTOUCH
  | SC_TYPE_AIRKISS
  | SC_TYPE_ESPTOUCH_AIRKISS
  | SC_TYPE_ESPTOUCH_V2
  deriving DecidableEq, Repr

/-- Receive callbacks that this file hands to the driver. -/
inductive RxCb
  | pkt_wifi2usb
  deriving DecidableEq, Repr

/-- Tick count argument of a blocking call: a finite number of ticks, or the
FreeRTOS constant `portMAX_DELAY` that means wait without a deadline. -/
inductive TickType_t
  | ticks (n : Nat)
  | portMAX_DELAY
  deriving DecidableEq, Repr

/-- Station part of `wifi_config_t`, restricted to the fields this file writes. -/
structure wifi_sta_config_t where
  ssid : String
  password : String
  bssid_set : Bool
  bssid : List Nat
  pmf_capable : Bool
  deriving DecidableEq, Repr

/-- Soft-AP part of `wifi_config_t`, restricted to the fields this file writes. -/
structure wifi_ap_config_t where
  ssid : String
  password : String
  ssid_len : Nat
  max_connection : Nat
  authmode : wifi_auth_mode_t
  deriving DecidableEq, Repr

inductive wifi_config_t
  | sta (c : wifi_sta_config_t)
  | ap (c : wifi_ap_config_t)
  deriving DecidableEq, Repr

/-- Payload of `SC_EVENT_GOT_SSID_PSWD`. -/
structure smartconfig_event_got_ssid_pswd_t where
  ssid : String
  password : String
  bssid_set : Bool
  bssid : List Nat
  type : smartconfig_type_t
  deriving DecidableEq, Repr

/-- Events seen by `wifi_event_handler`: one constructor per
`event_base == ... && event_id == ...` test of the handler, and `other` for
every event that matches none of them (the handler is registered for
`ESP_EVENT_ANY_ID` on both bases). -/
inductive Event
  | WIFI_EVENT_STA_START
  | WIFI_EVENT_STA_DISCONNECTED
  | WIFI_EVENT_STA_CONNECTED
  | SC_EVENT_SCAN_DONE
  | SC_EVENT_FOUND_CHANNEL
  | SC_EVENT_GOT_SSID_PSWD (evt : smartconfig_event_got_ssid_pswd_t)
  | SC_EVENT_SEND_ACK_DONE
  | other
  deriving DecidableEq, Repr

/-- Calls that leave `cmd_wifi.c`, with the arguments that matter. -/
inductive Call
  | esp_wifi_get_mac (ifx : wifi_interface_t)
  | esp_wifi_internal_reg_rxcb (ifx : wifi_interface_t) (fn : Option RxCb)
  | tud_ready
  | esp_wifi_connect
  | esp_wifi_disconnect
  | esp_wifi_set_mode (mode : wifi_mode_t)
  | esp_wifi_set_config (ifx : wifi_interface_t) (conf : wifi_config_t)
  | esp_data_back (text : String) (flush : Bool)
  | esp_smartconfig_get_rvd_data
  | esp_smartconfig_set_type (t : smartconfig_type_t)
  | esp_smartconfig_start
  | esp_smartconfig_stop
  | xTaskCreate (name : String) (stackDepth : Nat) (priority : Nat)
  | vTaskDelete (task : Option Nat)
  | esp_wifi_internal_tx (ifx : wifi_interface_t) (buffer : Nat) (len : Nat)
  | tinyusb_net_send_sync (buffer : Nat) (len : Nat) (eb : Nat) (timeout : TickType_t)
  | esp_wifi_internal_free_rx_buffer (buffer : Nat)
  deriving DecidableEq, Repr

/-- Values returned by the external calls of one invocation. -/
structure Env where
  tud_ready : Bool
  /-- The address written by `esp_wifi_get_mac`, or `none` when the call fails. -/
  esp_wifi_get_mac : Option (List Nat)
  esp_smartconfig_get_rvd_data : esp_err_t
  esp_wifi_disconnect : esp_err_t
  esp_wifi_set_mode : esp_err_t
  esp_wifi_set_config : esp_err_t
  esp_smartconfig_set_type : esp_err_t
  esp_smartconfig_start : esp_err_t
  /-- The handle written by `xTaskCreate`, or `none` when no task could be created. -/
  xTaskCreate : Option Nat
  esp_wifi_internal_tx : esp_err_t
  tinyusb_net_send_sync : esp_err_t
  deriving DecidableEq, Repr

/-- An environment in which every external call succeeds. -/
def Env.allOk : Env :=
  { tud_ready := true
    esp_wifi_get_mac := some [0x24, 0x0A, 0xC4, 0x00, 0x00, 0x01]
    esp_smartconfig_get_rvd_data := ESP_OK
    esp_wifi_disconnect := ESP_OK
    esp_wifi_set_mode := ESP_OK
    esp_wifi_set_config := ESP_OK
    esp_smartconfig_set_type := ESP_OK
    esp_smartconfig_start := ESP_OK
    xTaskCreate := some 1
    esp_wifi_internal_tx := ESP_OK
    tinyusb_net_send_sync := ESP_OK }

/-! ## Event group bits -/

def CONNECTED_BIT : Nat := 1
def DISCONNECTED_BIT : Nat := 2
def ESPTOUCH_DONE_BIT : Nat := 4

/-- Parameters of a pending `xEventGroupWaitBits` call. -/
structure Waiter where
  uxBitsToWaitFor : Nat
  xClearOnExit : Bool
  xWaitForAllBits : Bool
  deriving DecidableEq, Repr

/-- The FreeRTOS unblock condition of a wait on the event bits `bits`. -/
def Waiter.satisfied (w : Waiter) (bits : Nat) : Bool :=
  if w.xWaitForAllBits then bits &&& w.uxBitsToWaitFor == w.uxBitsToWaitFor
  else bits &&& w.uxBitsToWaitFor != 0

/-- The value `bits` with the bits of `mask` cleared. -/
def clearBits (bits mask : Nat) : Nat := bits ^^^ (bits &&& mask)

/-- Scheduling state of the task created by `wifi_cmd_start_smart_config`. -/
inductive TaskState
  | absent                       -- no smartconfig task exists
  | created                      -- created, `smartconfig_task` has not run yet
  | ready                        -- inside the loop, about to call xEventGroupWaitBits
  | blocked (w : Waiter)         -- blocked inside xEventGroupWaitBits
  | unblocked (uxBits : Nat)     -- xEventGroupWaitBits has its return value
  deriving DecidableEq, Repr

/-! ## Program state -/

structure State where
  Smart_Config_Handle : Option Nat
  reconnect : Bool
  wifi_start : Bool
  smart_config : Bool
  /-- Bit value of `wifi_event_group`. -/
  wifi_event_group : Nat
  tud_network_mac_address : List Nat
  s_wifi_is_connected : Bool
  /-- The smartconfig task, as FreeRTOS sees it. -/
  sc_task : TaskState
  /-- External calls made so far, oldest first. -/
  calls : List Call
  deriving DecidableEq, Repr

/-- Values of the file-scope variables at start-up, with an empty event group. -/
def State.init : State :=
  { Smart_Config_Handle := none
    reconnect := true
    wifi_start := false
    smart_config := false
    wifi_event_group := 0
    tud_network_mac_address := [0x02, 0x02, 0x84, 0x6A, 0x96, 0x00]
    s_wifi_is_connected := false
    sc_task := .absent
    calls := [] }

/-- Record one external call. -/
def State.call (s : State) (c : Call) : State :=
  { s with calls := s.calls ++ [c] }

/-- Effect of one logged call on the receive callback held by the driver for
the station interface. -/
def rxcb_after (cur : Option RxCb) : Call → Option RxCb
  | .esp_wifi_internal_reg_rxcb .WIFI_IF_STA fn => fn
  | _ => cur

/-- The callback last passed to `esp_wifi_internal_reg_rxcb` for the station
interface; `none` stands for NULL and for no registration at all. -/
def registered_rxcb (calls : List Call) : Option RxCb :=
  calls.foldl rxcb_after none

/-- `ESP_ERROR_CHECK(x)`: continue on `ESP_OK`, abort otherwise. -/
def ESP_ERROR_CHECK (x : esp_err_t) : Except Fault Unit :=
  if x = ESP_OK then pure () else .error .abort

/-- `xEventGroupSetBits`: set the bits, then unblock the waiting task when its
condition is met; a clear-on-exit waiter has its bits cleared in the same
critical section and receives the value from before the clear. -/
def xEventGroupSetBits (uxBitsToSet : Nat) (s : State) : State :=
  let v := s.wifi_event_group ||| uxBitsToSet
  match s.sc_task with
  | .blocked w =>
      if w.satisfied v then
        { s with
          wifi_event_group := if w.xClearOnExit then clearBits v w.uxBitsToWaitFor else v
          sc_task := .unblocked v }
      else { s with wifi_event_group := v }
  | _ => { s with wifi_event_group := v }

/-- `xEventGroupClearBits`. -/
def xEventGroupClearBits (uxBitsToClear : Nat) (s : State) : State :=
  { s with wifi_event_group := clearBits s.wifi_event_group uxBitsToClear }

/-! ## The event handler -/

/-- `wifi_event_handler` (lines 97-180). -/
def wifi_event_handler (ev : Event) (env : Env) (s : State) : Except Fault State :=
  match ev with
  | .WIFI_EVENT_STA_START =>
      let s := s.call (.esp_wifi_get_mac .WIFI_IF_STA)
      let s := { s with
        tud_network_mac_address := env.esp_wifi_get_mac.getD s.tud_network_mac_address }
      pure { s with wifi_start := true }
  | .WIFI_EVENT_STA_DISCONNECTED =>
      let s := { s with s_wifi_is_connected := false }
      let s := s.call (.esp_wifi_internal_reg_rxcb .WIFI_IF_STA none)
      let s :=
        if s.reconnect then
          let s := s.call .tud_ready
          if env.tud_ready then s.call .esp_wifi_connect else s
        else s
      let s := xEventGroupClearBits CONNECTED_BIT s
      let s := xEventGroupSetBits DISCONNECTED_BIT s
      pure s
  | .WIFI_EVENT_STA_CONNECTED =>
      if s.smart_config = false then
        let s := s.call (.esp_wifi_internal_reg_rxcb .WIFI_IF_STA (some .pkt_wifi2usb))
        let s := { s with s_wifi_is_connected := true }
        let s := xEventGroupClearBits DISCONNECTED_BIT s
        let s := xEventGroupSetBits CONNECTED_BIT s
        pure s
      else pure s
  | .SC_EVENT_SCAN_DONE => pure s
  | .SC_EVENT_FOUND_CHANNEL => pure s
  | .SC_EVENT_GOT_SSID_PSWD evt => do
      let wifi_config : wifi_sta_config_t :=
        { ssid := evt.ssid
          password := evt.password
          bssid_set := evt.bssid_set
          bssid := if evt.bssid_set = true then evt.bssid else List.replicate 6 0
          pmf_capable := false }
      let s := s.call
        (.esp_data_back ("SSID:" ++ evt.ssid ++ ",PASSWORD:" ++ evt.password ++ "\r\n") true)
      let s ←
        if evt.type = .SC_TYPE_ESPTOUCH_V2 then do
          let s := s.call .esp_smartconfig_get_rvd_data
          ESP_ERROR_CHECK env.esp_smartconfig_get_rvd_data
          pure s
        else pure s
      let s := s.call .esp_wifi_disconnect
      ESP_ERROR_CHECK env.esp_wifi_disconnect
      let s := s.call (.esp_wifi_set_mode .WIFI_MODE_STA)
      ESP_ERROR_CHECK env.esp_wifi_set_mode
      let s := s.call (.esp_wifi_set_config .WIFI_IF_STA (.sta wifi_config))
      ESP_ERROR_CHECK env.esp_wifi_set_config
      pure (s.call .esp_wifi_connect)
  | .SC_EVENT_SEND_ACK_DONE =>
      let s := xEventGroupSetBits ESPTOUCH_DONE_BIT s
      let s := s.call (.esp_wifi_internal_reg_rxcb .WIFI_IF_STA (some .pkt_wifi2usb))
      let s := { s with s_wifi_is_connected := true }
      let s := xEventGroupClearBits DISCONNECTED_BIT s
      let s := xEventGroupSetBits CONNECTED_BIT s
      pure s
  | .other => pure s

/-! ## Commands -/

/-- `strlcpy(dst, src, size)`: the text that ends up in `dst`. -/
def strlcpy (src : String) (size : Nat) : String :=
  String.mk (src.data.take (size - 1))

/-- `xEventGroupWaitBits` as seen by a command task.  `arrivals` are the events
the event loop dispatches while the caller is blocked, in order; the call
returns as soon as the condition holds, and returns the current bits when the
list is used up (the timeout).  A zero timeout is an empty list. -/
def xEventGroupWaitBits (uxBitsToWaitFor : Nat) (xClearOnExit xWaitForAllBits : Bool)
    (arrivals : List (Event × Env)) (s : State) : Except Fault (Nat × State) :=
  if (Waiter.mk uxBitsToWaitFor xClearOnExit xWaitForAllBits).satisfied s.wifi_event_group then
    pure (s.wifi_event_group,
      if xClearOnExit then xEventGroupClearBits uxBitsToWaitFor s else s)
  else
    match arrivals with
    | [] => pure (s.wifi_event_group, s)
    | (ev, env) :: rest => do
        let s ← wifi_event_handler ev env s
        xEventGroupWaitBits uxBitsToWaitFor xClearOnExit xWaitForAllBits rest s

/-- `wifi_cmd_sta_join` (lines 218-254).  `wait1` and `wait2` are the events
dispatched during the one second and the five second wait. -/
def wifi_cmd_sta_join (ssid : String) (pass : Option String) (env : Env)
    (wait1 wait2 : List (Event × Env)) (s : State) : Except Fault (esp_err_t × State) := do
  let (bits, s) ← xEventGroupWaitBits CONNECTED_BIT false true [] s
  let wifi_config : wifi_sta_config_t :=
    { ssid := strlcpy ssid 32
      password := match pass with
        | some p => strlcpy p 64
        | none => ""
      bssid_set := false
      bssid := List.replicate 6 0
      pmf_capable := true }
  let s ←
    if bits &&& CONNECTED_BIT ≠ 0 then do
      let s := { s with reconnect := false }
      let s := xEventGroupClearBits CONNECTED_BIT s
      let s := s.call .esp_wifi_disconnect
      ESP_ERROR_CHECK env.esp_wifi_disconnect
      let (_, s) ← xEventGroupWaitBits DISCONNECTED_BIT false true wait1 s
      pure s
    else pure s
  let s := { s with reconnect := true }
  let s := s.call (.esp_wifi_set_mode .WIFI_MODE_STA)
  ESP_ERROR_CHECK env.esp_wifi_set_mode
  let s := s.call (.esp_wifi_set_config .WIFI_IF_STA (.sta wifi_config))
  ESP_ERROR_CHECK env.esp_wifi_set_config
  let s := s.call .esp_wifi_connect
  let (status, s) ← xEventGroupWaitBits CONNECTED_BIT false true wait2 s
  if status &&& CONNECTED_BIT ≠ 0 then pure (ESP_OK, s)
  else pure (ESP_FAIL, { s with reconnect := false })

/-- `wif_cmd_disconnect_wifi` (lines 256-268).  `wait1` are the events
dispatched during the wait for `DISCONNECTED_BIT`. -/
def wif_cmd_disconnect_wifi (env : Env) (wait1 : List (Event × Env)) (s : State) :
    Except Fault (esp_err_t × State) := do
  let (bits, s) ← xEventGroupWaitBits CONNECTED_BIT false true [] s
  if bits &&& CONNECTED_BIT ≠ 0 then do
    let s := { s with reconnect := false }
    let s := xEventGroupClearBits CONNECTED_BIT s
    let s := s.call .esp_wifi_disconnect
    ESP_ERROR_CHECK env.esp_wifi_disconnect
    let (_, s) ← xEventGroupWaitBits DISCONNECTED_BIT false true wait1 s
    pure (ESP_OK, s)
  else pure (ESP_FAIL, s)

/-- `wifi_cmd_ap_set` (lines 281-311).  `pass = none` is a NULL pointer, which
line 304 hands to `strlen`. -/
def wifi_cmd_ap_set (ssid : String) (pass : Option String) (env : Env) (s : State) :
    Except Fault (esp_err_t × State) :=
  let wifi_config : wifi_ap_config_t :=
    { ssid := ""
      ssid_len := 0
      max_connection := 4
      password := ""
      authmode := .WIFI_AUTH_WPA_WPA2_PSK }
  let s := { s with reconnect := false }
  let wifi_config := { wifi_config with ssid := strlcpy ssid 32 }
  match pass with
  | some p =>
      if p.length ≠ 0 ∧ p.length < 8 then
        let s := { s with reconnect := true }
        pure (ESP_FAIL, s)
      else do
        let wifi_config := { wifi_config with password := strlcpy p 64 }
        let wifi_config :=
          if p.length = 0 then { wifi_config with authmode := .WIFI_AUTH_OPEN }
          else wifi_config
        let s := s.call (.esp_wifi_set_mode .WIFI_MODE_AP)
        ESP_ERROR_CHECK env.esp_wifi_set_mode
        let s := s.call (.esp_wifi_set_config .WIFI_IF_AP (.ap wifi_config))
        ESP_ERROR_CHECK env.esp_wifi_set_config
        pure (ESP_OK, s)
  | none => .error .null_deref

/-- `wifi_cmd_start_smart_config` (lines 373-386).  The value returned by
`xTaskCreate` is not inspected; the handle is written only when a task was
created. -/
def wifi_cmd_start_smart_config (env : Env) (s : State) : esp_err_t × State :=
  if s.wifi_start then
    if s.smart_config then (ESP_FAIL, s)
    else
      let s := s.call (.xTaskCreate "smartconfig_task" 4096 3)
      let s :=
        match env.xTaskCreate with
        | some h => { s with Smart_Config_Handle := some h, sc_task := .created }
        | none => s
      let s := { s with smart_config := true }
      (ESP_OK, s)
  else (ESP_FAIL, s)

/-- `wifi_cmd_stop_smart_config` (lines 388-400).  Deleting through a stored
handle removes the smartconfig task.  With a NULL handle `vTaskDelete` deletes
the calling task, so the command never returns. -/
def wifi_cmd_stop_smart_config (s : State) : Except Fault (esp_err_t × State) :=
  if s.smart_config then
    let s := s.call .esp_smartconfig_stop
    let s := { s with smart_config := false }
    let s := s.call (.vTaskDelete s.Smart_Config_Handle)
    match s.Smart_Config_Handle with
    | some _ => pure (ESP_OK, { s with sc_task := .absent })
    | none => .error .caller_deleted
  else pure (ESP_FAIL, s)

/-- The stop command issued `n` times in a row. -/
def stop_repeated : Nat → State → Except Fault State
  | 0, s => pure s
  | n + 1, s => do
      let (_, s) ← wifi_cmd_stop_smart_config s
      stop_repeated n s

/-! ## Frame forwarding -/

/-- `wifi_buffer_free` (lines 402-405). -/
def wifi_buffer_free (buffer : Nat) (s : State) : State :=
  s.call (.esp_wifi_internal_free_rx_buffer buffer)

/-- `wifi_recv_callback` (lines 407-413).  The value returned by
`esp_wifi_internal_tx` is discarded. -/
def wifi_recv_callback (buffer len : Nat) (env : Env) (s : State) : esp_err_t × State :=
  let s :=
    if s.s_wifi_is_connected then
      let _ := env.esp_wifi_internal_tx
      s.call (.esp_wifi_internal_tx .WIFI_IF_STA buffer len)
    else s
  (ESP_OK, s)

/-- `pkt_wifi2usb` (lines 415-421). -/
def pkt_wifi2usb (buffer len eb : Nat) (env : Env) (s : State) : esp_err_t × State :=
  let s := s.call (.tinyusb_net_send_sync buffer len eb .portMAX_DELAY)
  let s :=
    if env.tinyusb_net_send_sync ≠ ESP_OK then
      s.call (.esp_wifi_internal_free_rx_buffer eb)
    else s
  (ESP_OK, s)

/-! ## The smartconfig task -/

/-- One delivery to this file: an event for the handler or one of the
commands, each with the values its external calls return. -/
inductive Step
  | event (ev : Event) (env : Env)
  | sta_join (ssid : String) (pass : Option String) (env : Env)
      (wait1 wait2 : List (Event × Env))
  | disconnect_wifi (env : Env) (wait1 : List (Event × Env))
  | ap_set (ssid : String) (pass : Option String) (env : Env)
  | start_smart_config (env : Env)
  | stop_smart_config

/-- Run one step. -/
def Step.run : Step → State → Except Fault State
  | .event ev env, s => wifi_event_handler ev env s
  | .sta_join ssid pass env wait1 wait2, s =>
      (wifi_cmd_sta_join ssid pass env wait1 wait2 s).map Prod.snd
  | .disconnect_wifi env wait1, s => (wif_cmd_disconnect_wifi env wait1 s).map Prod.snd
  | .ap_set ssid pass env, s => (wifi_cmd_ap_set ssid pass env s).map Prod.snd
  | .start_smart_config env, s => pure (wifi_cmd_start_smart_config env s).2
  | .stop_smart_config, s => (wifi_cmd_stop_smart_config s).map Prod.snd

/-- The states reached after each step of a sequence, in order; the list ends
early when a step does not return. -/
def states_after : List Step → State → List State
  | [], _ => []
  | st :: rest, s =>
      match st.run s with
      | .ok s1 => s1 :: states_after rest s1
      | .error _ => []

/-- The receive hook held by the driver is `pkt_wifi2usb` exactly when
`s_wifi_is_connected` is true. -/
def HookInv (s : State) : Prop :=
  registered_rxcb s.calls = some RxCb.pkt_wifi2usb ↔ s.s_wifi_is_connected = true

/-- What the link invariant talks about: the registered hook and the flag. -/
def link (s : State) : Option RxCb × Bool :=
  (registered_rxcb s.calls, s.s_wifi_is_connected)

/-! ## Definitions used by the statements -/

/-- The station configuration that the handler builds from the payload of
`SC_EVENT_GOT_SSID_PSWD`. -/
def got_ssid_config (evt : smartconfig_event_got_ssid_pswd_t) : wifi_sta_config_t :=
  { ssid := evt.ssid
    password := evt.password
    bssid_set := evt.bssid_set
    bssid := if evt.bssid_set = true then evt.bssid else List.replicate 6 0
    pmf_capable := false }

/-- The external calls of a `SC_EVENT_GOT_SSID_PSWD` delivery that runs to the end. -/
def got_ssid_calls (evt : smartconfig_event_got_ssid_pswd_t) : List Call :=
  [Call.esp_data_back ("SSID:" ++ evt.ssid ++ ",PASSWORD:" ++ evt.password ++ "\r\n") true]
    ++ (if evt.type = .SC_TYPE_ESPTOUCH_V2 then [Call.esp_smartconfig_get_rvd_data] else [])
    ++ [Call.esp_wifi_disconnect, Call.esp_wifi_set_mode .WIFI_MODE_STA,
        Call.esp_wifi_set_config .WIFI_IF_STA (.sta (got_ssid_config evt)),
        Call.esp_wifi_connect]

/-- The driver results under which a `SC_EVENT_GOT_SSID_PSWD` delivery passes
every `ESP_ERROR_CHECK`. -/
def got_ssid_checks_pass (evt : smartconfig_event_got_ssid_pswd_t) (env : Env) : Prop :=
  (evt.type = .SC_TYPE_ESPTOUCH_V2 → env.esp_smartconfig_get_rvd_data = ESP_OK) ∧
  env.esp_wifi_disconnect = ESP_OK ∧ env.esp_wifi_set_mode = ESP_OK ∧
  env.esp_wifi_set_config = ESP_OK

instance (evt : smartconfig_event_got_ssid_pswd_t) (env : Env) :
    Decidable (got_ssid_checks_pass evt env) := by
  unfold got_ssid_checks_pass; infer_instance

/-- A sample sequence: the link starts, associates, and a join is issued that
first tears the association down and then sees it come back. -/
def sampleSteps : List Step :=
  [ Step.event .WIFI_EVENT_STA_START Env.allOk,
    Step.event .WIFI_EVENT_STA_CONNECTED Env.allOk,
    Step.sta_join "homenet" (some "longpassword") Env.allOk
      [(.WIFI_EVENT_STA_DISCONNECTED, Env.allOk)]
      [(.WIFI_EVENT_STA_CONNECTED, Env.allOk)] ]

/-- The state after the second step of `sampleSteps`. -/
def sampleAssociated : State :=
  { State.init with
    wifi_start := true
    tud_network_mac_address := [0x24, 0x0A, 0xC4, 0x00, 0x00, 0x01]
    s_wifi_is_connected := true
    wifi_event_group := 1
    calls := [Call.esp_wifi_get_mac .WIFI_IF_STA,
              Call.esp_wifi_internal_reg_rxcb .WIFI_IF_STA (some .pkt_wifi2usb)] }

/-- Recognises a transmit call. -/
def is_tx : Call → Bool
  | .esp_wifi_internal_tx _ _ _ => true
  | _ => false

/-- Recognises a delivery attempt to the host transport. -/
def is_send_sync : Call → Bool
  | .tinyusb_net_send_sync _ _ _ _ => true
  | _ => false

/-- Recognises a release of a driver receive buffer. -/
def is_free_rx_buffer : Call → Bool
  | .esp_wifi_internal_free_rx_buffer _ => true
  | _ => false

/-- Recognises a reconnect request. -/
def is_connect : Call → Bool
  | .esp_wifi_connect => true
  | _ => false

/-- A state in which the station is associated. -/
def associated : State :=
  { State.init with
    s_wifi_is_connected := true
    wifi_event_group := 1
    calls := [Call.esp_wifi_internal_reg_rxcb .WIFI_IF_STA (some .pkt_wifi2usb)] }

/-- The state after a successful `wifi_cmd_ap_set "dongle" "longpassword"`
issued in the initial state: the reconnect flag is off. -/
def afterApSet : State :=
  { State.init with
    reconnect := false
    calls := [Call.esp_wifi_set_mode .WIFI_MODE_AP,
              Call.esp_wifi_set_config .WIFI_IF_AP (.ap
                { ssid := "dongle"
                  password := "longpassword"
                  ssid_len := 0
                  max_connection := 4
                  authmode := .WIFI_AUTH_WPA_WPA2_PSK })] }

theorem registered_rxcb_append (l l2 : List Call) :
    registered_rxcb (l ++ l2) = l2.foldl rxcb_after (registered_rxcb l) := by
  simp [registered_rxcb, List.foldl_append]

theorem registered_rxcb_snoc (l : List Call) (c : Call) :
    registered_rxcb (l ++ [c]) = rxcb_after (registered_rxcb l) c := by
  simp [registered_rxcb_append]

@[simp] theorem call_calls (s : State) (c : Call) : (s.call c).calls = s.calls ++ [c] := rfl

@[simp] theorem call_connected (s : State) (c : Call) :
    (s.call c).s_wifi_is_connected = s.s_wifi_is_connected := rfl

@[simp] theorem call_smart_config (s : State) (c : Call) :
    (s.call c).smart_config = s.smart_config := rfl

@[simp] theorem call_reconnect (s : State) (c : Call) :
    (s.call c).reconnect = s.reconnect := rfl

@[simp] theorem call_sc_task (s : State) (c : Call) : (s.call c).sc_task = s.sc_task := rfl

@[simp] theorem setBits_calls (m : Nat) (s : State) :
    (xEventGroupSetBits m s).calls = s.calls := by
  unfold xEventGroupSetBits
  cases s.sc_task <;> first | rfl | (dsimp only; split_ifs <;> rfl)

@[simp] theorem setBits_connected (m : Nat) (s : State) :
    (xEventGroupSetBits m s).s_wifi_is_connected = s.s_wifi_is_connected := by
  unfold xEventGroupSetBits
  cases s.sc_task <;> first | rfl | (dsimp only; split_ifs <;> rfl)

@[simp] theorem setBits_smart_config (m : Nat) (s : State) :
    (xEventGroupSetBits m s).smart_config = s.smart_config := by
  unfold xEventGroupSetBits
  cases s.sc_task <;> first | rfl | (dsimp only; split_ifs <;> rfl)

@[simp] theorem clearBits_calls (m : Nat) (s : State) :
    (xEventGroupClearBits m s).calls = s.calls := rfl

@[simp] theorem clearBits_connected (m : Nat) (s : State) :
    (xEventGroupClearBits m s).s_wifi_is_connected = s.s_wifi_is_connected := rfl

@[simp] theorem clearBits_smart_config (m : Nat) (s : State) :
    (xEventGroupClearBits m s).smart_config = s.smart_config := rfl

@[simp] theorem clearBits_sc_task (m : Nat) (s : State) :
    (xEventGroupClearBits m s).sc_task = s.sc_task := rfl

/-- A call other than a hook registration leaves `link` alone. -/
theorem link_call (s : State) (c : Call)
    (h : ∀ fn, c ≠ Call.esp_wifi_internal_reg_rxcb wifi_interface_t.WIFI_IF_STA fn) :
    link (s.call c) = link s := by
  simp only [link, call_calls, call_connected, registered_rxcb_snoc]
  cases c <;> simp_all [rxcb_after]

@[simp] theorem link_setBits (m : Nat) (s : State) : link (xEventGroupSetBits m s) = link s := by
  simp [link]

@[simp] theorem link_clearBits (m : Nat) (s : State) :
    link (xEventGroupClearBits m s) = link s := rfl

theorem HookInv_of_link {s t : State} (h : link t = link s) (hs : HookInv s) : HookInv t := by
  simp only [link, Prod.mk.injEq] at h
  unfold HookInv at *
  rw [h.1, h.2]
  exact hs

/-- Closed form of the handler on `SC_EVENT_GOT_SSID_PSWD`. -/
theorem handler_got_ssid (evt : smartconfig_event_got_ssid_pswd_t) (env : Env) (s : State) :
    wifi_event_handler (.SC_EVENT_GOT_SSID_PSWD evt) env s =
      if got_ssid_checks_pass evt env then
        .ok { s with calls := s.calls ++ got_ssid_calls evt }
      else .error .abort := by
  unfold got_ssid_checks_pass
  by_cases h1 : evt.type = .SC_TYPE_ESPTOUCH_V2 <;>
  by_cases h2 : env.esp_smartconfig_get_rvd_data = ESP_OK <;>
  by_cases h3 : env.esp_wifi_disconnect = ESP_OK <;>
  by_cases h4 : env.esp_wifi_set_mode = ESP_OK <;>
  by_cases h5 : env.esp_wifi_set_config = ESP_OK <;>
  simp [wifi_event_handler, ESP_ERROR_CHECK, bind, Except.bind, pure, Except.pure, h1, h2, h3,
    h4, h5, got_ssid_calls, got_ssid_config, State.call]

/-- The handler leaves the state satisfying the invariant, from any state. -/
theorem handler_HookInv (ev : Event) (env : Env) (s t : State)
    (h : wifi_event_handler ev env s = .ok t) (hs : HookInv s) : HookInv t := by
  cases ev with
  | WIFI_EVENT_STA_START =>
      simp only [wifi_event_handler, pure, Except.pure, Except.ok.injEq] at h
      subst h
      exact HookInv_of_link (link_call s _ (by simp)) hs
  | WIFI_EVENT_STA_DISCONNECTED =>
      simp only [wifi_event_handler, pure, Except.pure, Except.ok.injEq] at h
      subst h
      simp only [HookInv, setBits_calls, clearBits_calls, setBits_connected, clearBits_connected]
      split <;> [split; skip] <;> simp [registered_rxcb_append, rxcb_after]
  | WIFI_EVENT_STA_CONNECTED =>
      simp only [wifi_event_handler, pure, Except.pure] at h
      split at h
      · simp only [Except.ok.injEq] at h
        subst h
        simp [HookInv, registered_rxcb_snoc, rxcb_after]
      · simp only [Except.ok.injEq] at h
        subst h
        exact hs
  | SC_EVENT_SCAN_DONE =>
      simp only [wifi_event_handler, pure, Except.pure, Except.ok.injEq] at h
      subst h; exact hs
  | SC_EVENT_FOUND_CHANNEL =>
      simp only [wifi_event_handler, pure, Except.pure, Except.ok.injEq] at h
      subst h; exact hs
  | SC_EVENT_GOT_SSID_PSWD evt =>
      rw [handler_got_ssid] at h
      split at h
      · simp only [Except.ok.injEq] at h
        subst h
        refine HookInv_of_link ?_ hs
        simp only [link, registered_rxcb_append, got_ssid_calls]
        split <;> simp [rxcb_after]
      · simp at h
  | SC_EVENT_SEND_ACK_DONE =>
      simp only [wifi_event_handler, pure, Except.pure, Except.ok.injEq] at h
      subst h
      simp [HookInv, registered_rxcb_snoc, rxcb_after]
  | other =>
      simp only [wifi_event_handler, pure, Except.pure, Except.ok.injEq] at h
      subst h; exact hs

theorem bind_eq_ok {α β : Type} (x : Except Fault α) (f : α → Except Fault β) (r : β) :
    (x >>= f) = .ok r ↔ ∃ a, x = .ok a ∧ f a = .ok r := by
  cases x <;> simp [bind, Except.bind]

/-- A wait of a command task keeps the invariant: it only runs the handler. -/
theorem wait_HookInv (m : Nat) (c a : Bool) (arrivals : List (Event × Env)) :
    ∀ (s t : State) (b : Nat), xEventGroupWaitBits m c a arrivals s = .ok (b, t) →
      HookInv s → HookInv t := by
  induction arrivals with
  | nil =>
      intro s t b h hs
      unfold xEventGroupWaitBits at h
      split at h <;> simp only [pure, Except.pure, Except.ok.injEq, Prod.mk.injEq] at h
      · rw [← h.2]
        split <;> exact hs
      · rw [← h.2]; exact hs
  | cons e rest ih =>
      intro s t b h hs
      obtain ⟨ev, env⟩ := e
      unfold xEventGroupWaitBits at h
      split at h
      · simp only [pure, Except.pure, Except.ok.injEq, Prod.mk.injEq] at h
        rw [← h.2]
        split <;> exact hs
      · rw [bind_eq_ok] at h
        obtain ⟨s1, h1, h2⟩ := h
        exact ih s1 t b h2 (handler_HookInv ev env s s1 h1 hs)

theorem disconnect_wifi_HookInv (env : Env) (wait1 : List (Event × Env)) (s t : State)
    (r : esp_err_t) (h : wif_cmd_disconnect_wifi env wait1 s = .ok (r, t)) (hs : HookInv s) :
    HookInv t := by
  unfold wif_cmd_disconnect_wifi at h
  rw [bind_eq_ok] at h
  obtain ⟨⟨bits, s1⟩, h1, h⟩ := h
  have i1 := wait_HookInv _ _ _ _ _ _ _ h1 hs
  dsimp only at h
  split at h
  · rw [bind_eq_ok] at h
    obtain ⟨u, _, h⟩ := h
    rw [bind_eq_ok] at h
    obtain ⟨⟨b2, s2⟩, h2, h⟩ := h
    simp only [pure, Except.pure, Except.ok.injEq, Prod.mk.injEq] at h
    rw [← h.2]
    refine wait_HookInv _ _ _ _ _ _ _ h2 ?_
    refine HookInv_of_link ?_ i1
    rw [link_call _ _ (by simp)]
    rfl
  · simp only [pure, Except.pure, Except.ok.injEq, Prod.mk.injEq] at h
    rw [← h.2]; exact i1

theorem sta_join_HookInv (ssid : String) (pass : Option String) (env : Env)
    (wait1 wait2 : List (Event × Env)) (s t : State) (r : esp_err_t)
    (h : wifi_cmd_sta_join ssid pass env wait1 wait2 s = .ok (r, t)) (hs : HookInv s) :
    HookInv t := by
  unfold wifi_cmd_sta_join at h
  rw [bind_eq_ok] at h
  obtain ⟨⟨bits, s1⟩, h1, h⟩ := h
  have i1 := wait_HookInv _ _ _ _ _ _ _ h1 hs
  dsimp only at h
  have tail : ∀ (y : State) (cfg : wifi_config_t), HookInv y →
      (do
        ESP_ERROR_CHECK env.esp_wifi_set_mode
        ESP_ERROR_CHECK env.esp_wifi_set_config
        let __discr ←
          xEventGroupWaitBits CONNECTED_BIT false true wait2
            ((({ y with reconnect := true }.call
              (Call.esp_wifi_set_mode wifi_mode_t.WIFI_MODE_STA)).call
                (Call.esp_wifi_set_config wifi_interface_t.WIFI_IF_STA cfg)).call
                  Call.esp_wifi_connect)
        if __discr.1 &&& CONNECTED_BIT ≠ 0 then pure (ESP_OK, __discr.2)
        else pure (ESP_FAIL, { __discr.2 with reconnect := false }) :
          Except Fault (esp_err_t × State)) = .ok (r, t) → HookInv t := by
    intro y cfg iy hy
    rw [bind_eq_ok] at hy
    obtain ⟨u1, _, hy⟩ := hy
    rw [bind_eq_ok] at hy
    obtain ⟨u2, _, hy⟩ := hy
    rw [bind_eq_ok] at hy
    obtain ⟨⟨status, s4⟩, h4, hy⟩ := hy
    have i4 : HookInv s4 := by
      refine wait_HookInv _ _ _ _ _ _ _ h4 ?_
      refine HookInv_of_link ?_ iy
      rw [link_call _ _ (by simp), link_call _ _ (by simp), link_call _ _ (by simp)]
      rfl
    dsimp only at hy
    split at hy <;> simp only [pure, Except.pure, Except.ok.injEq, Prod.mk.injEq] at hy
    · rw [← hy.2]; exact i4
    · rw [← hy.2]; exact i4
  split at h
  · rw [bind_eq_ok] at h
    obtain ⟨u, _, h⟩ := h
    rw [bind_eq_ok] at h
    obtain ⟨⟨b3, s3⟩, h3, h⟩ := h
    rw [pure_bind] at h
    refine tail _ _ ?_ h
    refine wait_HookInv _ _ _ _ _ _ _ h3 ?_
    refine HookInv_of_link ?_ i1
    rw [link_call _ _ (by simp)]
    rfl
  · rw [pure_bind] at h
    exact tail _ _ i1 h

theorem ap_set_link (ssid : String) (pass : Option String) (env : Env) (s t : State)
    (r : esp_err_t) (h : wifi_cmd_ap_set ssid pass env s = .ok (r, t)) : link t = link s := by
  unfold wifi_cmd_ap_set at h
  cases pass with
  | none => simp at h
  | some p =>
      dsimp only at h
      split at h
      · simp only [pure, Except.pure, Except.ok.injEq, Prod.mk.injEq] at h
        rw [← h.2]; rfl
      · rw [bind_eq_ok] at h
        obtain ⟨u1, _, h⟩ := h
        rw [bind_eq_ok] at h
        obtain ⟨u2, _, h⟩ := h
        simp only [pure, Except.pure, Except.ok.injEq, Prod.mk.injEq] at h
        rw [← h.2, link_call _ _ (by simp), link_call _ _ (by simp)]
        rfl

theorem start_smart_config_link (env : Env) (s : State) :
    link (wifi_cmd_start_smart_config env s).2 = link s := by
  unfold wifi_cmd_start_smart_config
  split
  · split
    · rfl
    · cases env.xTaskCreate <;> simp [link, registered_rxcb_snoc, rxcb_after]
  · rfl

theorem stop_smart_config_link (s t : State) (r : esp_err_t)
    (h : wifi_cmd_stop_smart_config s = .ok (r, t)) : link t = link s := by
  unfold wifi_cmd_stop_smart_config at h
  split at h
  · cases hh : s.Smart_Config_Handle with
    | none => simp [State.call, hh] at h
    | some v =>
        simp only [State.call, hh, pure, Except.pure, Except.ok.injEq, Prod.mk.injEq] at h
        rw [← h.2]
        simp [link, registered_rxcb_append, rxcb_after]
  · simp only [pure, Except.pure, Except.ok.injEq, Prod.mk.injEq] at h
    rw [← h.2]

/-- Every step keeps the invariant. -/
theorem step_HookInv (st : Step) (s t : State) (h : st.run s = .ok t) (hs : HookInv s) :
    HookInv t := by
  cases st with
  | event ev env => exact handler_HookInv ev env s t h hs
  | sta_join ssid pass env wait1 wait2 =>
      simp only [Step.run] at h
      cases hr : wifi_cmd_sta_join ssid pass env wait1 wait2 s with
      | error e => simp [hr, Except.map] at h
      | ok p =>
          obtain ⟨r, t1⟩ := p
          simp only [hr, Except.map, Except.ok.injEq] at h
          subst h
          exact sta_join_HookInv _ _ _ _ _ _ _ _ hr hs
  | disconnect_wifi env wait1 =>
      simp only [Step.run] at h
      cases hr : wif_cmd_disconnect_wifi env wait1 s with
      | error e => simp [hr, Except.map] at h
      | ok p =>
          obtain ⟨r, t1⟩ := p
          simp only [hr, Except.map, Except.ok.injEq] at h
          subst h
          exact disconnect_wifi_HookInv _ _ _ _ _ hr hs
  | ap_set ssid pass env =>
      simp only [Step.run] at h
      cases hr : wifi_cmd_ap_set ssid pass env s with
      | error e => simp [hr, Except.map] at h
      | ok p =>
          obtain ⟨r, t1⟩ := p
          simp only [hr, Except.map, Except.ok.injEq] at h
          subst h
          exact HookInv_of_link (ap_set_link _ _ _ _ _ _ hr) hs
  | start_smart_config env =>
      simp only [Step.run, pure, Except.pure, Except.ok.injEq] at h
      subst h
      exact HookInv_of_link (start_smart_config_link env s) hs
  | stop_smart_config =>
      simp only [Step.run] at h
      cases hr : wifi_cmd_stop_smart_config s with
      | error e => simp [hr, Except.map] at h
      | ok p =>
          obtain ⟨r, t1⟩ := p
          simp only [hr, Except.map, Except.ok.injEq] at h
          subst h
          exact HookInv_of_link (stop_smart_config_link _ _ _ hr) hs

theorem states_after_HookInv (steps : List Step) :
    ∀ s : State, HookInv s → ∀ t ∈ states_after steps s, HookInv t := by
  induction steps with
  | nil => intro s _ t ht; simp [states_after] at ht
  | cons st rest ih =>
      intro s hs t ht
      unfold states_after at ht
      cases hr : st.run s with
      | error e => simp [hr] at ht
      | ok s1 =>
          simp only [hr, List.mem_cons] at ht
          have i1 := step_HookInv st s s1 hr hs
          rcases ht with ht | ht
          · rw [ht]; exact i1
          · exact ih s1 i1 t ht

theorem init_HookInv : HookInv State.init := by
  simp [HookInv, State.init, registered_rxcb]

/-! ## C1: hook registered iff connected -/

/-- C1: starting from the initial state, after every step of every finite
sequence of handler events and commands (join, disconnect, AP set, smartconfig
start and stop), the receive hook last passed to `esp_wifi_internal_reg_rxcb`
is non-NULL, namely `pkt_wifi2usb`, if and only if `s_wifi_is_connected` is
true. -/
theorem C1_hook_registered_iff_connected (steps : List Step) (t : State)
    (ht : t ∈ states_after steps State.init) :
    (registered_rxcb t.calls ≠ none ↔ t.s_wifi_is_connected = true) ∧
    (registered_rxcb t.calls = some RxCb.pkt_wifi2usb ↔ t.s_wifi_is_connected = true) := by
  have h := states_after_HookInv steps State.init init_HookInv t ht
  unfold HookInv at h
  refine ⟨?_, h⟩
  rw [← h]
  cases registered_rxcb t.calls with
  | none => simp
  | some fn => cases fn; simp

/-- The invariant of C1 at the associated state of the sample sequence. -/
theorem C1_hook_registered_iff_connected_witness :
    sampleAssociated ∈ states_after sampleSteps State.init ∧
    ((registered_rxcb sampleAssociated.calls ≠ none ↔
        sampleAssociated.s_wifi_is_connected = true) ∧
     (registered_rxcb sampleAssociated.calls = some RxCb.pkt_wifi2usb ↔
        sampleAssociated.s_wifi_is_connected = true)) :=
  ⟨by decide, C1_hook_registered_iff_connected sampleSteps sampleAssociated (by decide)⟩

/-! ## C2, C8: host frames towards the radio -/

/-- C2: for every frame and state, `wifi_recv_callback` appends exactly one
`esp_wifi_internal_tx` call, with the same buffer and length on the station
interface, when `s_wifi_is_connected` is true, and makes no call at all when
it is false; nothing but the call log changes. -/
theorem C2_recv_callback_forwards_iff_connected (buffer len : Nat) (env : Env) (s : State) :
    (wifi_recv_callback buffer len env s).2 =
      (if s.s_wifi_is_connected = true then
        { s with calls := s.calls ++ [Call.esp_wifi_internal_tx .WIFI_IF_STA buffer len] }
      else s) ∧
    ((wifi_recv_callback buffer len env s).2.calls.countP is_tx =
      s.calls.countP is_tx + (if s.s_wifi_is_connected = true then 1 else 0)) := by
  unfold wifi_recv_callback
  cases h : s.s_wifi_is_connected <;> simp [State.call, is_tx, List.countP_append, h]

/-- C8 as amended: `wifi_recv_callback` returns `ESP_OK` for every frame, in
every state and whatever `esp_wifi_internal_tx` returns. -/
theorem C8_recv_callback_always_ok (buffer len : Nat) (env : Env) (s : State) :
    (wifi_recv_callback buffer len env s).1 = ESP_OK := rfl

/-- C8 fails as stated: a frame dropped while not connected, and a frame whose
transmit call returns `ESP_FAIL`, both yield `ESP_OK`. -/
theorem C8_counterexample :
    State.init.s_wifi_is_connected = false ∧
    (wifi_recv_callback 7 60 Env.allOk State.init).1 = ESP_OK ∧
    (wifi_recv_callback 7 60 Env.allOk State.init).2 = State.init ∧
    associated.s_wifi_is_connected = true ∧
    (wifi_recv_callback 7 60 { Env.allOk with esp_wifi_internal_tx := ESP_FAIL } associated).1
      = ESP_OK := by
  decide

/-! ## C3, C9: radio frames towards the host -/

/-- C3: for every frame and every result of `tinyusb_net_send_sync`,
`pkt_wifi2usb` makes exactly one delivery attempt; it then releases the driver
buffer `eb` exactly once when the attempt did not return `ESP_OK`, and makes
no release call when it did. -/
theorem C3_pkt_wifi2usb_single_attempt (buffer len eb : Nat) (env : Env) (s : State) :
    (pkt_wifi2usb buffer len eb env s).2 =
      { s with calls := s.calls
          ++ [Call.tinyusb_net_send_sync buffer len eb TickType_t.portMAX_DELAY]
          ++ (if env.tinyusb_net_send_sync = ESP_OK then []
              else [Call.esp_wifi_internal_free_rx_buffer eb]) } ∧
    ((pkt_wifi2usb buffer len eb env s).2.calls.countP is_send_sync =
      s.calls.countP is_send_sync + 1) ∧
    ((pkt_wifi2usb buffer len eb env s).2.calls.countP is_free_rx_buffer =
      s.calls.countP is_free_rx_buffer +
        (if env.tinyusb_net_send_sync = ESP_OK then 0 else 1)) := by
  unfold pkt_wifi2usb
  by_cases h : env.tinyusb_net_send_sync = ESP_OK <;>
    simp [State.call, h, is_send_sync, is_free_rx_buffer, List.countP_append]

/-- C9 as amended: the one delivery attempt of `pkt_wifi2usb` passes
`portMAX_DELAY` as its deadline: the first call it adds is
`tinyusb_net_send_sync` with that timeout, and no other delivery attempt is
made. -/
theorem C9_pkt_wifi2usb_waits_forever (buffer len eb : Nat) (env : Env) (s : State) :
    (pkt_wifi2usb buffer len eb env s).2.calls.drop s.calls.length =
      Call.tinyusb_net_send_sync buffer len eb TickType_t.portMAX_DELAY ::
        (if env.tinyusb_net_send_sync = ESP_OK then []
         else [Call.esp_wifi_internal_free_rx_buffer eb]) := by
  unfold pkt_wifi2usb
  by_cases h : env.tinyusb_net_send_sync = ESP_OK <;> simp [State.call, h]

/-- C9 fails as stated: the deadline handed to `tinyusb_net_send_sync` is
`portMAX_DELAY`, not a finite number of ticks. -/
theorem C9_counterexample :
    (pkt_wifi2usb 7 60 9 Env.allOk State.init).2.calls =
      [Call.tinyusb_net_send_sync 7 60 9 TickType_t.portMAX_DELAY] ∧
    ∀ n : Nat, Call.tinyusb_net_send_sync 7 60 9 (TickType_t.ticks n) ∉
      (pkt_wifi2usb 7 60 9 Env.allOk State.init).2.calls := by
  refine ⟨by decide, ?_⟩
  intro n
  have h : (pkt_wifi2usb 7 60 9 Env.allOk State.init).2.calls =
      [Call.tinyusb_net_send_sync 7 60 9 TickType_t.portMAX_DELAY] := by decide
  rw [h]
  simp

/-! ## C4: one reconnect request per disassociation -/

/-- C4: handling one `WIFI_EVENT_STA_DISCONNECTED` returns, adds exactly one
`esp_wifi_connect` call when the reconnect flag is true and `tud_ready()` is
true and none otherwise, clears `s_wifi_is_connected` and leaves NULL as the
registered receive hook. -/
theorem C4_disconnected_one_reconnect (env : Env) (s : State) :
    ∃ t, wifi_event_handler .WIFI_EVENT_STA_DISCONNECTED env s = .ok t ∧
      t.calls.countP is_connect =
        s.calls.countP is_connect + (if s.reconnect = true ∧ env.tud_ready = true then 1 else 0) ∧
      t.s_wifi_is_connected = false ∧
      registered_rxcb t.calls = none ∧
      t.calls.drop s.calls.length =
        Call.esp_wifi_internal_reg_rxcb .WIFI_IF_STA none ::
          (if s.reconnect = true then
            Call.tud_ready :: (if env.tud_ready = true then [Call.esp_wifi_connect] else [])
           else []) := by
  refine ⟨_, rfl, ?_⟩
  cases h1 : s.reconnect <;> cases h2 : env.tud_ready <;>
    simp [State.call, h1, h2, is_connect, List.countP_append, registered_rxcb_append, rxcb_after]

/-! ## C5, C6: starting and stopping smartconfig -/

/-- C6 as amended: while no session is running (`smart_config` false),
`wifi_cmd_stop_smart_config` returns `ESP_FAIL`, makes no call and leaves the
state as it was, however many times it is called. -/
theorem C6_stop_when_idle (s : State) (hs : s.smart_config = false) :
    wifi_cmd_stop_smart_config s = .ok (ESP_FAIL, s) ∧
    ∀ n : Nat, stop_repeated n s = .ok s := by
  have h : wifi_cmd_stop_smart_config s = .ok (ESP_FAIL, s) := by
    simp [wifi_cmd_stop_smart_config, hs, pure, Except.pure]
  refine ⟨h, ?_⟩
  intro n
  induction n with
  | zero => rfl
  | succ k ih =>
      unfold stop_repeated
      rw [h]
      exact ih

/-- The amended C6 at the initial state. -/
theorem C6_stop_when_idle_witness :
    State.init.smart_config = false ∧
    (wifi_cmd_stop_smart_config State.init = .ok (ESP_FAIL, State.init) ∧
     ∀ n : Nat, stop_repeated n State.init = .ok State.init) :=
  ⟨rfl, C6_stop_when_idle State.init rfl⟩

/-- C6 fails as stated: with no session running the stop command does not
return `ESP_OK`. -/
theorem C6_counterexample :
    State.init.smart_config = false ∧
    wifi_cmd_stop_smart_config State.init = .ok (ESP_FAIL, State.init) ∧
    ESP_FAIL ≠ ESP_OK :=
  ⟨rfl, rfl, by decide⟩

/-! ## C7: rejected AP configuration -/

/-- A rejected passphrase (1 to 7 characters) makes `wifi_cmd_ap_set` return
`ESP_FAIL` without any call, and leaves the reconnect flag set to true. -/
theorem ap_set_short_pass (ssid p : String) (env : Env) (s : State)
    (h1 : 1 ≤ p.length) (h7 : p.length ≤ 7) :
    wifi_cmd_ap_set ssid (some p) env s = .ok (ESP_FAIL, { s with reconnect := true }) := by
  have hc : p.length ≠ 0 ∧ p.length < 8 := ⟨by omega, by omega⟩
  simp [wifi_cmd_ap_set, hc, pure, Except.pure]

/-- C7 at its failing input: after a successful AP set-up the reconnect flag
is false; a following `wifi_cmd_ap_set` with the passphrase "ab" returns
`ESP_FAIL` and makes no driver call, yet the flag is true afterwards, so the
state is not the one before the call. -/
theorem C7_rejected_ap_set_turns_reconnect_on :
    wifi_cmd_ap_set "dongle" (some "longpassword") Env.allOk State.init
      = .ok (ESP_OK, afterApSet) ∧
    afterApSet.reconnect = false ∧
    wifi_cmd_ap_set "dongle" (some "ab") Env.allOk afterApSet
      = .ok (ESP_FAIL, { afterApSet with reconnect := true }) ∧
    ({ afterApSet with reconnect := true } : State) ≠ afterApSet :=
  ⟨rfl, rfl, rfl, by decide⟩

/-! ## C10: provisioning completes -/

end CmdWifi
